import Mathlib

/-!
Verification development for the financial-ratio diagnostic calculator
(`financial_analysis3.py` and `financial_analysis4.py`).

The numeric core of the application is a pure transform: two records of
integer statement line items (current period, prior period) are turned into
thirteen ratios, five category composite scores and one overall score.
Python performs the divisions in floating point; the embedding models the
arithmetic exactly over `ℚ`, with the entered line items as `ℤ` (the UI
collects integers).  `calc_growth` returning Python `None` is modelled with
`Option ℚ`.

The two source files carry two copies of the same pipeline; they are
embedded separately in namespaces `FA3` and `FA4` over the shared input
record type `Raw`.
-/

/-- Raw entered line items of a single period, as collected by
`create_inputs` in both source files.  All monetary fields are integers in
thousands; `extra_inc` and `extra_exp` exist only in the
`financial_analysis4.py` form (the `FA3` pipeline never reads them). -/
structure Raw where
  sales : ℤ
  cogs : ℤ
  depreciation : ℤ
  sga : ℤ
  non_op_inc : ℤ
  non_op_exp : ℤ
  extra_inc : ℤ
  extra_exp : ℤ
  tax : ℤ
  cash : ℤ
  receivables : ℤ
  inventory : ℤ
  other_ca : ℤ
  fixed_assets : ℤ
  payables : ℤ
  short_loan : ℤ
  other_cl : ℤ
  long_loan : ℤ
  net_assets : ℤ
  employees : ℤ

/-- Prior-period values drawn on the radar chart (`p_scores_val` in the
sources).  Field names translate the five Japanese category keys:
`profit` = 収益, `growth` = 成長, `efficiency` = 効率,
`productivity` = 生産, `safety` = 安全. -/
structure PScores where
  profit : ℚ
  growth : ℚ
  efficiency : ℚ
  productivity : ℚ
  safety : ℚ

/-- Every value the KPI-derivation-and-scoring pipeline produces: the
thirteen current-period ratios, the prior-period ratios that are computed,
the five category composites, the overall score and the prior radar
values.  `working_capital` stays an integer, as in the source. -/
structure Report where
  op_margin : ℚ
  fcf : ℚ
  sales_growth : Option ℚ
  op_growth : Option ℚ
  fixed_turn : ℚ
  inv_days : ℚ
  sales_per_emp : ℚ
  op_per_emp : ℚ
  equity_pct : ℚ
  loan_monthly : ℚ
  liquidity_pct : ℚ
  working_capital : ℤ
  redemption_years : ℚ
  prior_op_margin : ℚ
  prior_equity_pct : ℚ
  prior_loan_monthly : ℚ
  prior_fixed_turn : ℚ
  prior_inv_days : ℚ
  prior_sales_per_emp : ℚ
  prior_op_per_emp : ℚ
  prior_liquidity_pct : ℚ
  prior_working_capital : ℤ
  prior_redemption_years : ℚ
  sc_profit : ℚ
  sc_growth : ℚ
  sc_eff : ℚ
  sc_prod : ℚ
  sc_safety : ℚ
  overall : ℚ
  prior_radar : PScores

namespace FA3

/-- Embeds `safe_div` (financial_analysis3.py line 81):
`n / d if d != 0 else 0`. -/
def safe_div (n d : ℚ) : ℚ := if d ≠ 0 then n / d else 0

/-- Embeds `calc_growth` (lines 82-84): `None` when `previous <= 0`,
otherwise `(current - previous) / previous * 100`. -/
def calc_growth (current previous : ℚ) : Option ℚ :=
  if previous ≤ 0 then none else some ((current - previous) / previous * 100)

/-- Embeds `calc_score` (lines 85-98): a `None` value scores 1; otherwise
a chain of closed threshold comparisons assigns a tier from 5 down to 1. -/
def calc_score (val : Option ℚ) (t1 t2 t3 t4 : ℚ) (lower_is_better : Bool) : ℚ :=
  match val with
  | none => 1
  | some v =>
    if lower_is_better then
      if v ≤ t4 then 5
      else if v ≤ t3 then 4
      else if v ≤ t2 then 3
      else if v ≤ t1 then 2
      else 1
    else
      if v ≥ t4 then 5
      else if v ≥ t3 then 4
      else if v ≥ t2 then 3
      else if v ≥ t1 then 2
      else 1

/-- Derived subtotal `gross_profit = sales - cogs` (line 123). -/
def gross_profit (d : Raw) : ℤ := d.sales - d.cogs

/-- Derived subtotal `op_profit = gross_profit - sga` (line 126). -/
def op_profit (d : Raw) : ℤ := gross_profit d - d.sga

/-- Derived subtotal `ord_profit = op_profit + non_op_inc - non_op_exp`
(line 130). -/
def ord_profit (d : Raw) : ℤ := op_profit d + d.non_op_inc - d.non_op_exp

/-- Derived subtotal `current_assets` (line 138). -/
def current_assets (d : Raw) : ℤ := d.cash + d.receivables + d.inventory + d.other_ca

/-- Derived subtotal `total_assets = current_assets + fixed_assets`
(line 140). -/
def total_assets (d : Raw) : ℤ := current_assets d + d.fixed_assets

/-- Derived subtotal `current_liab` (line 148). -/
def current_liab (d : Raw) : ℤ := d.payables + d.short_loan + d.other_cl

/-- Derived subtotal `fixed_liab = long_loan` (line 150). -/
def fixed_liab (d : Raw) : ℤ := d.long_loan

/-- Derived subtotal `total_liab_equity` (line 152). -/
def total_liab_equity (d : Raw) : ℤ := current_liab d + fixed_liab d + d.net_assets

/-- The balance-sheet difference `diff = total_assets - total_liab_equity`
(line 157), shown as a warning when non-zero. -/
def balanceDiff (d : Raw) : ℤ := total_assets d - total_liab_equity d

/-- The warning flag of lines 157-159: an error banner is shown exactly
when `diff != 0`.  The flag does not feed into any later computation. -/
def balance_warning (d : Raw) : Bool := decide (balanceDiff d ≠ 0)

/-- Ratio `c_op_margin` (line 168). -/
def c_op_margin (c : Raw) : ℚ := safe_div (op_profit c : ℚ) (c.sales : ℚ) * 100

/-- Ratio `c_fcf` (line 169), with the Python literal `0.6` as the exact
rational 3/5. -/
def c_fcf (c p : Raw) : ℚ :=
  ((op_profit c : ℚ) * 0.6 + (c.depreciation : ℚ)) -
    (((c.fixed_assets : ℚ) - (p.fixed_assets : ℚ)) + (c.depreciation : ℚ))

/-- Ratio `c_sales_growth` (line 170). -/
def c_sales_growth (c p : Raw) : Option ℚ := calc_growth (c.sales : ℚ) (p.sales : ℚ)

/-- Ratio `c_op_growth` (line 171). -/
def c_op_growth (c p : Raw) : Option ℚ := calc_growth (op_profit c : ℚ) (op_profit p : ℚ)

/-- Ratio `c_fixed_turn` (line 172). -/
def c_fixed_turn (c : Raw) : ℚ := safe_div (c.sales : ℚ) (c.fixed_assets : ℚ)

/-- Ratio `c_inv_days` (line 173). -/
def c_inv_days (c : Raw) : ℚ := safe_div (c.inventory : ℚ) ((c.cogs : ℚ) / 365)

/-- Ratio `c_sales_per_emp` (line 174). -/
def c_sales_per_emp (c : Raw) : ℚ := safe_div (c.sales : ℚ) (c.employees : ℚ)

/-- Ratio `c_op_per_emp` (line 175). -/
def c_op_per_emp (c : Raw) : ℚ := safe_div (op_profit c : ℚ) (c.employees : ℚ)

/-- Ratio `c_equity_ratio` in the source (line 176); renamed here. -/
def c_equity_pct (c : Raw) : ℚ := safe_div (c.net_assets : ℚ) (total_assets c : ℚ) * 100

/-- Ratio `c_loan_sales_ratio` in the source (line 177); renamed here. -/
def c_loan_monthly (c : Raw) : ℚ :=
  safe_div ((c.short_loan : ℚ) + (c.long_loan : ℚ)) ((c.sales : ℚ) / 12)

/-- Ratio `c_current_ratio` in the source (line 178); renamed here. -/
def c_liquidity (c : Raw) : ℚ :=
  safe_div (current_assets c : ℚ) (current_liab c : ℚ) * 100

/-- Ratio `c_working_capital` (line 179), integer arithmetic in Python. -/
def c_working_capital (c : Raw) : ℤ := current_assets c - current_liab c

/-- Ratio `c_redemption` (line 180): debt-repayment years, guarded by the
sign of `ord_profit + depreciation - tax`. -/
def c_redemption (c : Raw) : ℚ :=
  if 0 < ord_profit c + c.depreciation - c.tax then
    safe_div ((c.short_loan : ℚ) + (c.long_loan : ℚ))
      ((ord_profit c + c.depreciation - c.tax : ℤ) : ℚ)
  else 0

/-- Prior-period ratio `p_op_margin` (line 182). -/
def p_op_margin (p : Raw) : ℚ := safe_div (op_profit p : ℚ) (p.sales : ℚ) * 100

/-- Prior-period ratio `p_equity_ratio` in the source (line 183). -/
def p_equity_pct (p : Raw) : ℚ := safe_div (p.net_assets : ℚ) (total_assets p : ℚ) * 100

/-- Prior-period ratio `p_loan_sales_ratio` in the source (line 184). -/
def p_loan_monthly (p : Raw) : ℚ :=
  safe_div ((p.short_loan : ℚ) + (p.long_loan : ℚ)) ((p.sales : ℚ) / 12)

/-- Prior-period ratio `p_fixed_turn` (line 185). -/
def p_fixed_turn (p : Raw) : ℚ := safe_div (p.sales : ℚ) (p.fixed_assets : ℚ)

/-- Prior-period ratio `p_inv_days` (line 186). -/
def p_inv_days (p : Raw) : ℚ := safe_div (p.inventory : ℚ) ((p.cogs : ℚ) / 365)

/-- Prior-period ratio `p_sales_per_emp` (line 187). -/
def p_sales_per_emp (p : Raw) : ℚ := safe_div (p.sales : ℚ) (p.employees : ℚ)

/-- Prior-period ratio `p_op_per_emp` (line 188). -/
def p_op_per_emp (p : Raw) : ℚ := safe_div (op_profit p : ℚ) (p.employees : ℚ)

/-- Prior-period ratio `p_current_ratio` in the source (line 189). -/
def p_liquidity (p : Raw) : ℚ :=
  safe_div (current_assets p : ℚ) (current_liab p : ℚ) * 100

/-- Prior-period ratio `p_working_capital` (line 190). -/
def p_working_capital (p : Raw) : ℤ := current_assets p - current_liab p

/-- Prior-period ratio `p_redemption` (line 191). -/
def p_redemption (p : Raw) : ℚ :=
  if 0 < ord_profit p + p.depreciation - p.tax then
    safe_div ((p.short_loan : ℚ) + (p.long_loan : ℚ))
      ((ord_profit p + p.depreciation - p.tax : ℤ) : ℚ)
  else 0

/-- Sales-growth score term `score_sales_growth` (line 193). -/
def score_sales_growth (c p : Raw) : ℚ := calc_score (c_sales_growth c p) 0 3 5 10 false

/-- Operating-profit-growth score term with the turnaround override:
line 194 computes `calc_score(c_op_growth, 0, 3, 5, 10)` and line 195
replaces it by 5 when `p.op_profit <= 0 and c.op_profit > 0`; the final
value is this conditional. -/
def score_op_growth (c p : Raw) : ℚ :=
  if op_profit p ≤ 0 ∧ 0 < op_profit c then 5
  else calc_score (c_op_growth c p) 0 3 5 10 false

/-- Category composite 収益 (profitability), line 198. -/
def sc_profit (c p : Raw) : ℚ :=
  (calc_score (some (c_op_margin c)) 0 2 5 10 false +
    calc_score (some (c_fcf c p)) (-1000) 0 1000 5000 false) / 2

/-- Category composite 成長 (growth), line 199. -/
def sc_growth (c p : Raw) : ℚ := (score_sales_growth c p + score_op_growth c p) / 2

/-- Category composite 効率 (efficiency), line 200. -/
def sc_eff (c : Raw) : ℚ :=
  (calc_score (some (c_fixed_turn c)) 1 3 5 10 false +
    calc_score (some (c_inv_days c)) 180 90 60 30 true) / 2

/-- Category composite 生産 (productivity), line 201. -/
def sc_prod (c : Raw) : ℚ :=
  (calc_score (some (c_sales_per_emp c)) 10000 15000 20000 30000 false +
    calc_score (some (c_op_per_emp c)) 0 500 1000 2000 false) / 2

/-- Category composite 安全 (safety), line 202. -/
def sc_safety (c : Raw) : ℚ :=
  (calc_score (some (c_equity_pct c)) 10 20 40 60 false +
    calc_score (some (c_loan_monthly c)) 12 6 3 1 true) / 2

/-- Overall score `avg_score = sum(scores.values()) / 5` (line 227). -/
def avg_score (c p : Raw) : ℚ :=
  (sc_profit c p + sc_growth c p + sc_eff c + sc_prod c + sc_safety c) / 5

/-- Prior radar values `p_scores_val` (lines 204-205): every category is
the constant 3, then the 収益 entry is overwritten with the single prior
operating-margin score. -/
def p_scores_val (p : Raw) : PScores :=
  { profit := calc_score (some (p_op_margin p)) 0 2 5 10 false
    growth := 3
    efficiency := 3
    productivity := 3
    safety := 3 }

/-- The whole pipeline of lines 166-205 as one pure function of the two
entered records. -/
def evalReport (c p : Raw) : Report :=
  { op_margin := c_op_margin c
    fcf := c_fcf c p
    sales_growth := c_sales_growth c p
    op_growth := c_op_growth c p
    fixed_turn := c_fixed_turn c
    inv_days := c_inv_days c
    sales_per_emp := c_sales_per_emp c
    op_per_emp := c_op_per_emp c
    equity_pct := c_equity_pct c
    loan_monthly := c_loan_monthly c
    liquidity_pct := c_liquidity c
    working_capital := c_working_capital c
    redemption_years := c_redemption c
    prior_op_margin := p_op_margin p
    prior_equity_pct := p_equity_pct p
    prior_loan_monthly := p_loan_monthly p
    prior_fixed_turn := p_fixed_turn p
    prior_inv_days := p_inv_days p
    prior_sales_per_emp := p_sales_per_emp p
    prior_op_per_emp := p_op_per_emp p
    prior_liquidity_pct := p_liquidity p
    prior_working_capital := p_working_capital p
    prior_redemption_years := p_redemption p
    sc_profit := sc_profit c p
    sc_growth := sc_growth c p
    sc_eff := sc_eff c
    sc_prod := sc_prod c
    sc_safety := sc_safety c
    overall := avg_score c p
    prior_radar := p_scores_val p }

/-- One interaction of the app as the core sees it: `create_inputs`
computes the balance warning for each period (lines 157-159) and the
computation section then derives the report from the same dictionaries;
the warning flags are produced alongside the report and never consumed by
it. -/
def evaluate (c p : Raw) : (Bool × Bool) × Report :=
  ((balance_warning c, balance_warning p), evalReport c p)

end FA3

namespace FA4

/-- Embeds `safe_div` (financial_analysis4.py line 80). -/
def safe_div (n d : ℚ) : ℚ := if d ≠ 0 then n / d else 0

/-- Embeds `calc_growth` (lines 81-83). -/
def calc_growth (current previous : ℚ) : Option ℚ :=
  if previous ≤ 0 then none else some ((current - previous) / previous * 100)

/-- Embeds `calc_score` (lines 84-97). -/
def calc_score (val : Option ℚ) (t1 t2 t3 t4 : ℚ) (lower_is_better : Bool) : ℚ :=
  match val with
  | none => 1
  | some v =>
    if lower_is_better then
      if v ≤ t4 then 5
      else if v ≤ t3 then 4
      else if v ≤ t2 then 3
      else if v ≤ t1 then 2
      else 1
    else
      if v ≥ t4 then 5
      else if v ≥ t3 then 4
      else if v ≥ t2 then 3
      else if v ≥ t1 then 2
      else 1

/-- Derived subtotal `gross_profit` (line 204). -/
def gross_profit (d : Raw) : ℤ := d.sales - d.cogs

/-- Derived subtotal `op_profit` (line 207). -/
def op_profit (d : Raw) : ℤ := gross_profit d - d.sga

/-- Derived subtotal `ord_profit` (line 211). -/
def ord_profit (d : Raw) : ℤ := op_profit d + d.non_op_inc - d.non_op_exp

/-- Derived subtotal `pre_tax_profit` (line 215), present only in this
variant of the form. -/
def pre_tax_profit (d : Raw) : ℤ := ord_profit d + d.extra_inc - d.extra_exp

/-- Derived subtotal `net_profit` (line 218), present only in this variant
of the form. -/
def net_profit (d : Raw) : ℤ := pre_tax_profit d - d.tax

/-- Derived subtotal `current_assets` (line 227). -/
def current_assets (d : Raw) : ℤ := d.cash + d.receivables + d.inventory + d.other_ca

/-- Derived subtotal `total_assets` (line 229). -/
def total_assets (d : Raw) : ℤ := current_assets d + d.fixed_assets

/-- Derived subtotal `current_liab` (line 238). -/
def current_liab (d : Raw) : ℤ := d.payables + d.short_loan + d.other_cl

/-- Derived subtotal `fixed_liab` (line 240). -/
def fixed_liab (d : Raw) : ℤ := d.long_loan

/-- Derived subtotal `total_liab_equity` (line 242). -/
def total_liab_equity (d : Raw) : ℤ := current_liab d + fixed_liab d + d.net_assets

/-- Balance difference `diff` (line 248). -/
def balanceDiff (d : Raw) : ℤ := total_assets d - total_liab_equity d

/-- Warning flag of lines 248-250. -/
def balance_warning (d : Raw) : Bool := decide (balanceDiff d ≠ 0)

/-- Ratio `c_op_margin` (line 283; recomputed identically at line 353 for
redisplay). -/
def c_op_margin (c : Raw) : ℚ := safe_div (op_profit c : ℚ) (c.sales : ℚ) * 100

/-- Ratio `c_fcf` (lines 284 and 354). -/
def c_fcf (c p : Raw) : ℚ :=
  ((op_profit c : ℚ) * 0.6 + (c.depreciation : ℚ)) -
    (((c.fixed_assets : ℚ) - (p.fixed_assets : ℚ)) + (c.depreciation : ℚ))

/-- Ratio `c_sales_growth` (lines 285 and 355). -/
def c_sales_growth (c p : Raw) : Option ℚ := calc_growth (c.sales : ℚ) (p.sales : ℚ)

/-- Ratio `c_op_growth` (lines 286 and 356). -/
def c_op_growth (c p : Raw) : Option ℚ := calc_growth (op_profit c : ℚ) (op_profit p : ℚ)

/-- Ratio `c_fixed_turn` (lines 287 and 357). -/
def c_fixed_turn (c : Raw) : ℚ := safe_div (c.sales : ℚ) (c.fixed_assets : ℚ)

/-- Ratio `c_inv_days` (lines 288 and 358). -/
def c_inv_days (c : Raw) : ℚ := safe_div (c.inventory : ℚ) ((c.cogs : ℚ) / 365)

/-- Ratio `c_sales_per_emp` (lines 289 and 359). -/
def c_sales_per_emp (c : Raw) : ℚ := safe_div (c.sales : ℚ) (c.employees : ℚ)

/-- Ratio `c_op_per_emp` (lines 290 and 360). -/
def c_op_per_emp (c : Raw) : ℚ := safe_div (op_profit c : ℚ) (c.employees : ℚ)

/-- Ratio `c_equity_ratio` in the source (lines 291 and 361). -/
def c_equity_pct (c : Raw) : ℚ := safe_div (c.net_assets : ℚ) (total_assets c : ℚ) * 100

/-- Ratio `c_loan_sales_ratio` in the source (lines 292 and 362). -/
def c_loan_monthly (c : Raw) : ℚ :=
  safe_div ((c.short_loan : ℚ) + (c.long_loan : ℚ)) ((c.sales : ℚ) / 12)

/-- Ratio `c_current_ratio` in the source (lines 293 and 363). -/
def c_liquidity (c : Raw) : ℚ :=
  safe_div (current_assets c : ℚ) (current_liab c : ℚ) * 100

/-- Ratio `c_working_capital` (lines 294 and 364). -/
def c_working_capital (c : Raw) : ℤ := current_assets c - current_liab c

/-- Ratio `c_redemption` (lines 295 and 365). -/
def c_redemption (c : Raw) : ℚ :=
  if 0 < ord_profit c + c.depreciation - c.tax then
    safe_div ((c.short_loan : ℚ) + (c.long_loan : ℚ))
      ((ord_profit c + c.depreciation - c.tax : ℤ) : ℚ)
  else 0

/-- Prior-period ratio `p_op_margin` (lines 297 and 367). -/
def p_op_margin (p : Raw) : ℚ := safe_div (op_profit p : ℚ) (p.sales : ℚ) * 100

/-- Prior-period ratio `p_equity_ratio` in the source (lines 298 and 368). -/
def p_equity_pct (p : Raw) : ℚ := safe_div (p.net_assets : ℚ) (total_assets p : ℚ) * 100

/-- Prior-period ratio `p_loan_sales_ratio` in the source (lines 299 and 369). -/
def p_loan_monthly (p : Raw) : ℚ :=
  safe_div ((p.short_loan : ℚ) + (p.long_loan : ℚ)) ((p.sales : ℚ) / 12)

/-- Prior-period ratio `p_fixed_turn` (lines 300 and 370). -/
def p_fixed_turn (p : Raw) : ℚ := safe_div (p.sales : ℚ) (p.fixed_assets : ℚ)

/-- Prior-period ratio `p_inv_days` (lines 301 and 371). -/
def p_inv_days (p : Raw) : ℚ := safe_div (p.inventory : ℚ) ((p.cogs : ℚ) / 365)

/-- Prior-period ratio `p_sales_per_emp` (lines 302 and 372). -/
def p_sales_per_emp (p : Raw) : ℚ := safe_div (p.sales : ℚ) (p.employees : ℚ)

/-- Prior-period ratio `p_op_per_emp` (lines 303 and 373). -/
def p_op_per_emp (p : Raw) : ℚ := safe_div (op_profit p : ℚ) (p.employees : ℚ)

/-- Prior-period ratio `p_current_ratio` in the source (lines 304 and 374). -/
def p_liquidity (p : Raw) : ℚ :=
  safe_div (current_assets p : ℚ) (current_liab p : ℚ) * 100

/-- Prior-period ratio `p_working_capital` (lines 305 and 375). -/
def p_working_capital (p : Raw) : ℤ := current_assets p - current_liab p

/-- Prior-period ratio `p_redemption` (lines 306 and 376). -/
def p_redemption (p : Raw) : ℚ :=
  if 0 < ord_profit p + p.depreciation - p.tax then
    safe_div ((p.short_loan : ℚ) + (p.long_loan : ℚ))
      ((ord_profit p + p.depreciation - p.tax : ℤ) : ℚ)
  else 0

/-- Score term `score_sales_growth` (lines 308 and 378). -/
def score_sales_growth (c p : Raw) : ℚ := calc_score (c_sales_growth c p) 0 3 5 10 false

/-- Score term `score_op_growth` with the turnaround override
(lines 309-310 and 379-380). -/
def score_op_growth (c p : Raw) : ℚ :=
  if op_profit p ≤ 0 ∧ 0 < op_profit c then 5
  else calc_score (c_op_growth c p) 0 3 5 10 false

/-- Category composite 収益, lines 314 and 383. -/
def sc_profit (c p : Raw) : ℚ :=
  (calc_score (some (c_op_margin c)) 0 2 5 10 false +
    calc_score (some (c_fcf c p)) (-1000) 0 1000 5000 false) / 2

/-- Category composite 成長, lines 315 and 384. -/
def sc_growth (c p : Raw) : ℚ := (score_sales_growth c p + score_op_growth c p) / 2

/-- Category composite 効率, lines 316 and 385. -/
def sc_eff (c : Raw) : ℚ :=
  (calc_score (some (c_fixed_turn c)) 1 3 5 10 false +
    calc_score (some (c_inv_days c)) 180 90 60 30 true) / 2

/-- Category composite 生産, lines 317 and 386. -/
def sc_prod (c : Raw) : ℚ :=
  (calc_score (some (c_sales_per_emp c)) 10000 15000 20000 30000 false +
    calc_score (some (c_op_per_emp c)) 0 500 1000 2000 false) / 2

/-- Category composite 安全, lines 318 and 387. -/
def sc_safety (c : Raw) : ℚ :=
  (calc_score (some (c_equity_pct c)) 10 20 40 60 false +
    calc_score (some (c_loan_monthly c)) 12 6 3 1 true) / 2

/-- Overall score `avg_score` (lines 320 and 391). -/
def avg_score (c p : Raw) : ℚ :=
  (sc_profit c p + sc_growth c p + sc_eff c + sc_prod c + sc_safety c) / 5

/-- Prior radar values `p_scores_val` (lines 389-390). -/
def p_scores_val (p : Raw) : PScores :=
  { profit := calc_score (some (p_op_margin p)) 0 2 5 10 false
    growth := 3
    efficiency := 3
    productivity := 3
    safety := 3 }

/-- The compute-on-submit pass of lines 283-320, whose redisplay rerun at
lines 352-391 is the same text, as one pure function. -/
def evalReport (c p : Raw) : Report :=
  { op_margin := c_op_margin c
    fcf := c_fcf c p
    sales_growth := c_sales_growth c p
    op_growth := c_op_growth c p
    fixed_turn := c_fixed_turn c
    inv_days := c_inv_days c
    sales_per_emp := c_sales_per_emp c
    op_per_emp := c_op_per_emp c
    equity_pct := c_equity_pct c
    loan_monthly := c_loan_monthly c
    liquidity_pct := c_liquidity c
    working_capital := c_working_capital c
    redemption_years := c_redemption c
    prior_op_margin := p_op_margin p
    prior_equity_pct := p_equity_pct p
    prior_loan_monthly := p_loan_monthly p
    prior_fixed_turn := p_fixed_turn p
    prior_inv_days := p_inv_days p
    prior_sales_per_emp := p_sales_per_emp p
    prior_op_per_emp := p_op_per_emp p
    prior_liquidity_pct := p_liquidity p
    prior_working_capital := p_working_capital p
    prior_redemption_years := p_redemption p
    sc_profit := sc_profit c p
    sc_growth := sc_growth c p
    sc_eff := sc_eff c
    sc_prod := sc_prod c
    sc_safety := sc_safety c
    overall := avg_score c p
    prior_radar := p_scores_val p }

end FA4

open FA3

/-- The all-zero input record (financial_analysis4.py initializes every
numeric field to 0 when no sample data is injected). -/
def zeroRaw : Raw :=
  { sales := 0, cogs := 0, depreciation := 0, sga := 0, non_op_inc := 0
    non_op_exp := 0, extra_inc := 0, extra_exp := 0, tax := 0, cash := 0
    receivables := 0, inventory := 0, other_ca := 0, fixed_assets := 0
    payables := 0, short_loan := 0, other_cl := 0, long_loan := 0
    net_assets := 0, employees := 0 }

/-- The default current-period figures of the financial_analysis3.py form
(lines 120-156); they balance exactly. -/
def sampleCurr : Raw :=
  { zeroRaw with
    sales := 100000, cogs := 70000, depreciation := 2000, sga := 25000
    non_op_exp := 500, tax := 500, cash := 15000, receivables := 12000
    inventory := 5000, other_ca := 1000, fixed_assets := 20000
    payables := 8000, short_loan := 10000, other_cl := 2000
    long_loan := 20000, net_assets := 13000, employees := 10 }

/-- The prior-period sample figures injected by the
financial_analysis4.py sample button (lines 140-159). -/
def samplePrev : Raw :=
  { zeroRaw with
    sales := 90000, cogs := 63000, depreciation := 2000, sga := 24000
    non_op_exp := 500, tax := 500, cash := 10000, receivables := 10000
    inventory := 4000, other_ca := 1000, fixed_assets := 20000
    payables := 7000, short_loan := 10000, other_cl := 2000
    long_loan := 22000, net_assets := 10000, employees := 9 }

/-- A current-period record whose balance sheet does not balance
(net assets raised by 1000 against `sampleCurr`). -/
def mismatchCurr : Raw := { sampleCurr with net_assets := 14000 }

/-- A record whose derived operating profit is -100. -/
def opMinus100 : Raw := { zeroRaw with cogs := 100 }

/-- A record whose derived operating profit is 50. -/
def opPlus50 : Raw := { zeroRaw with sales := 50 }

/-- Unfolding lemma: on a defined value with the higher-is-better
direction, `calc_score` is the descending chain of closed `≥`
comparisons. -/
lemma calc_score_some_hib (v t1 t2 t3 t4 : ℚ) :
    calc_score (some v) t1 t2 t3 t4 false =
      if t4 ≤ v then 5
      else if t3 ≤ v then 4
      else if t2 ≤ v then 3
      else if t1 ≤ v then 2
      else 1 := rfl

/-- Unfolding lemma: on a defined value with the lower-is-better
direction, `calc_score` is the descending chain of closed `≤`
comparisons. -/
lemma calc_score_some_lib (v t1 t2 t3 t4 : ℚ) :
    calc_score (some v) t1 t2 t3 t4 true =
      if v ≤ t4 then 5
      else if v ≤ t3 then 4
      else if v ≤ t2 then 3
      else if v ≤ t1 then 2
      else 1 := rfl

/-- Every score `calc_score` returns lies in the closed interval [1, 5]:
each branch of the threshold chain is one of the literals 1 through 5. -/
lemma calc_score_bounds (val : Option ℚ) (t1 t2 t3 t4 : ℚ) (b : Bool) :
    1 ≤ calc_score val t1 t2 t3 t4 b ∧ calc_score val t1 t2 t3 t4 b ≤ 5 := by
  cases val with
  | none => norm_num [FA3.calc_score]
  | some v =>
    cases b <;> (simp only [FA3.calc_score]; split_ifs <;> norm_num)

/-- The overridden operating-profit-growth score term also lies in
[1, 5]: the override value 5 is in range, and otherwise the term is a
`calc_score` value. -/
lemma score_op_growth_bounds (c p : Raw) :
    1 ≤ score_op_growth c p ∧ score_op_growth c p ≤ 5 := by
  unfold FA3.score_op_growth
  split_ifs
  · norm_num
  · exact calc_score_bounds _ 0 3 5 10 false

/-- Claim C1: for all thresholds and both directions, `calc_score` is
monotonic non-decreasing in the value when `lower_is_better` is false and
non-increasing when it is true; a value exactly equal to a threshold maps
to the higher tier (the comparison at each threshold is closed); and in
particular `calc_score(5, 0, 2, 5, 10, false) = 4`. -/
theorem calc_score_monotone_boundary :
    ∀ t1 t2 t3 t4 v w : ℚ,
      (v ≤ w →
        calc_score (some v) t1 t2 t3 t4 false ≤ calc_score (some w) t1 t2 t3 t4 false) ∧
      (v ≤ w →
        calc_score (some w) t1 t2 t3 t4 true ≤ calc_score (some v) t1 t2 t3 t4 true) ∧
      (t1 < t2 → t2 < t3 → t3 < t4 →
        calc_score (some t4) t1 t2 t3 t4 false = 5 ∧
        calc_score (some t3) t1 t2 t3 t4 false = 4 ∧
        calc_score (some t2) t1 t2 t3 t4 false = 3 ∧
        calc_score (some t1) t1 t2 t3 t4 false = 2) ∧
      (t4 < t3 → t3 < t2 → t2 < t1 →
        calc_score (some t4) t1 t2 t3 t4 true = 5 ∧
        calc_score (some t3) t1 t2 t3 t4 true = 4 ∧
        calc_score (some t2) t1 t2 t3 t4 true = 3 ∧
        calc_score (some t1) t1 t2 t3 t4 true = 2) ∧
      calc_score (some 5) 0 2 5 10 false = 4 := by
  intro t1 t2 t3 t4 v w
  refine ⟨?_, ?_, ?_, ?_, ?_⟩
  · intro h
    rw [calc_score_some_hib, calc_score_some_hib]
    split_ifs <;> linarith
  · intro h
    rw [calc_score_some_lib, calc_score_some_lib]
    split_ifs <;> linarith
  · intro h1 h2 h3
    refine ⟨?_, ?_, ?_, ?_⟩ <;>
      (rw [calc_score_some_hib]; split_ifs <;> linarith)
  · intro h1 h2 h3
    refine ⟨?_, ?_, ?_, ?_⟩ <;>
      (rw [calc_score_some_lib]; split_ifs <;> linarith)
  · rw [calc_score_some_hib]
    norm_num

/-- Witness for C1 at concrete inputs: monotone at values 3 ≤ 7 over the
operating-margin thresholds 0/2/5/10, ascending boundaries at 0/2/5/10,
descending boundaries at the inventory-days thresholds 180/90/60/30. -/
theorem calc_score_monotone_boundary_witness :
    ((3 : ℚ) ≤ 7 ∧
      calc_score (some 3) 0 2 5 10 false ≤ calc_score (some 7) 0 2 5 10 false ∧
      calc_score (some 7) 0 2 5 10 true ≤ calc_score (some 3) 0 2 5 10 true) ∧
    ((0 : ℚ) < 2 ∧ (2 : ℚ) < 5 ∧ (5 : ℚ) < 10 ∧
      calc_score (some 10) 0 2 5 10 false = 5 ∧
      calc_score (some 5) 0 2 5 10 false = 4 ∧
      calc_score (some 2) 0 2 5 10 false = 3 ∧
      calc_score (some 0) 0 2 5 10 false = 2) ∧
    ((30 : ℚ) < 60 ∧ (60 : ℚ) < 90 ∧ (90 : ℚ) < 180 ∧
      calc_score (some 30) 180 90 60 30 true = 5 ∧
      calc_score (some 60) 180 90 60 30 true = 4 ∧
      calc_score (some 90) 180 90 60 30 true = 3 ∧
      calc_score (some 180) 180 90 60 30 true = 2) := by
  have h1 := calc_score_monotone_boundary 0 2 5 10 3 7
  have h2 := calc_score_monotone_boundary 180 90 60 30 3 7
  have hb1 := h1.2.2.1 (by norm_num) (by norm_num) (by norm_num)
  have hb2 := h2.2.2.2.1 (by norm_num) (by norm_num) (by norm_num)
  exact ⟨⟨by norm_num, h1.1 (by norm_num), h1.2.1 (by norm_num)⟩,
    ⟨by norm_num, by norm_num, by norm_num, hb1.1, hb1.2.1, hb1.2.2.1, hb1.2.2.2⟩,
    ⟨by norm_num, by norm_num, by norm_num, hb2.1, hb2.2.1, hb2.2.2.1, hb2.2.2.2⟩⟩

/-- Claim C2: `safe_div(n, 0) = 0` for every numerator, and
`safe_div(n, d) = n / d` whenever `d` is non-zero; the function is total
over its numeric domain (it is a Lean function, so it cannot fail). -/
theorem safe_div_spec :
    ∀ n d : ℚ, safe_div n 0 = 0 ∧ (d ≠ 0 → safe_div n d = n / d) := by
  intro n d
  constructor
  · simp [FA3.safe_div]
  · intro h
    simp [FA3.safe_div, h]

/-- Witness for C2: `safe_div 10 0 = 0` and, since `2 ≠ 0`,
`safe_div 10 2 = 10 / 2`. -/
theorem safe_div_spec_witness :
    safe_div 10 0 = 0 ∧ (2 : ℚ) ≠ 0 ∧ safe_div 10 2 = 10 / 2 :=
  ⟨(safe_div_spec 10 2).1, by norm_num, (safe_div_spec 10 2).2 (by norm_num)⟩

/-- Claim C3: `calc_growth current previous` is the undefined marker
`none` exactly when `previous ≤ 0`, and otherwise equals
`(current - previous) / previous * 100`; it is a total Lean function, so
it never fails; on the spec's example it gives 100/9 ≈ 11.11. -/
theorem calc_growth_spec :
    ∀ c p : ℚ,
      (calc_growth c p = none ↔ p ≤ 0) ∧
      (0 < p → calc_growth c p = some ((c - p) / p * 100)) ∧
      calc_growth 100000 90000 = some (100 / 9) := by
  intro c p
  refine ⟨?_, ?_, ?_⟩
  · unfold FA3.calc_growth
    split_ifs with h <;> simp [h]
  · intro h
    unfold FA3.calc_growth
    rw [if_neg (by linarith)]
  · unfold FA3.calc_growth
    norm_num

/-- Witness for C3: with the positive baseline 90000,
`calc_growth 100000 90000` is defined and equals the growth formula. -/
theorem calc_growth_spec_witness :
    (0 : ℚ) < 90000 ∧
    calc_growth 100000 90000 = some ((100000 - 90000) / 90000 * 100) ∧
    calc_growth 100000 0 = none :=
  ⟨by norm_num, (calc_growth_spec 100000 90000).2.1 (by norm_num),
    (calc_growth_spec 100000 0).1.mpr (by norm_num)⟩

/-- Claim C4: whenever prior operating profit is non-positive and current
operating profit is positive, the operating-profit-growth score component
used in the growth composite is exactly 5, regardless of what
`calc_score` would assign to the raw growth value. -/
theorem turnaround_override_spec :
    ∀ c p : Raw, op_profit p ≤ 0 → 0 < op_profit c → score_op_growth c p = 5 := by
  intro c p h1 h2
  unfold FA3.score_op_growth
  rw [if_pos ⟨h1, h2⟩]

/-- Witness for C4: the spec's example, prior operating profit -100 and
current operating profit 50, scores exactly 5. -/
theorem turnaround_override_spec_witness :
    op_profit opMinus100 = -100 ∧ op_profit opPlus50 = 50 ∧
    score_op_growth opPlus50 opMinus100 = 5 :=
  ⟨by decide, by decide,
    turnaround_override_spec opPlus50 opMinus100 (by decide) (by decide)⟩

/-- Claim C5: for each period, the debt-repayment-years ratio equals
`safe_div(short_loan + long_loan, ord_profit + depreciation - tax)` when
that denominator is positive, and equals 0 (not an undefined marker)
whenever it is non-positive. -/
theorem redemption_spec :
    ∀ c p : Raw,
      (0 < ord_profit c + c.depreciation - c.tax →
        c_redemption c =
          safe_div ((c.short_loan : ℚ) + (c.long_loan : ℚ))
            ((ord_profit c + c.depreciation - c.tax : ℤ) : ℚ)) ∧
      (ord_profit c + c.depreciation - c.tax ≤ 0 → c_redemption c = 0) ∧
      (0 < ord_profit p + p.depreciation - p.tax →
        p_redemption p =
          safe_div ((p.short_loan : ℚ) + (p.long_loan : ℚ))
            ((ord_profit p + p.depreciation - p.tax : ℤ) : ℚ)) ∧
      (ord_profit p + p.depreciation - p.tax ≤ 0 → p_redemption p = 0) := by
  intro c p
  refine ⟨?_, ?_, ?_, ?_⟩
  · intro h
    unfold FA3.c_redemption
    rw [if_pos h]
  · intro h
    unfold FA3.c_redemption
    rw [if_neg (not_lt.mpr h)]
  · intro h
    unfold FA3.p_redemption
    rw [if_pos h]
  · intro h
    unfold FA3.p_redemption
    rw [if_neg (not_lt.mpr h)]

/-- Witness for C5: the default current figures have positive cash flow
6000, so the positive branch applies; the all-zero record takes the zero
branch. -/
theorem redemption_spec_witness :
    0 < ord_profit sampleCurr + sampleCurr.depreciation - sampleCurr.tax ∧
    c_redemption sampleCurr =
      safe_div ((sampleCurr.short_loan : ℚ) + (sampleCurr.long_loan : ℚ))
        ((ord_profit sampleCurr + sampleCurr.depreciation - sampleCurr.tax : ℤ) : ℚ) ∧
    ord_profit zeroRaw + zeroRaw.depreciation - zeroRaw.tax ≤ 0 ∧
    p_redemption zeroRaw = 0 :=
  ⟨by decide, (redemption_spec sampleCurr zeroRaw).1 (by decide), by decide,
    (redemption_spec sampleCurr zeroRaw).2.2.2 (by decide)⟩

/-- Claim C6: for every pair of integer input records each of the five
category composite scores lies in [1, 5], and the overall score, the mean
of the five composites, lies in [1, 5]. -/
theorem composite_scores_bounded :
    ∀ c p : Raw,
      (1 ≤ sc_profit c p ∧ sc_profit c p ≤ 5) ∧
      (1 ≤ sc_growth c p ∧ sc_growth c p ≤ 5) ∧
      (1 ≤ sc_eff c ∧ sc_eff c ≤ 5) ∧
      (1 ≤ sc_prod c ∧ sc_prod c ≤ 5) ∧
      (1 ≤ sc_safety c ∧ sc_safety c ≤ 5) ∧
      (1 ≤ avg_score c p ∧ avg_score c p ≤ 5) := by
  intro c p
  have h1 := calc_score_bounds (some (c_op_margin c)) 0 2 5 10 false
  have h2 := calc_score_bounds (some (c_fcf c p)) (-1000) 0 1000 5000 false
  have h3 := calc_score_bounds (c_sales_growth c p) 0 3 5 10 false
  have h4 := score_op_growth_bounds c p
  have h5 := calc_score_bounds (some (c_fixed_turn c)) 1 3 5 10 false
  have h6 := calc_score_bounds (some (c_inv_days c)) 180 90 60 30 true
  have h7 := calc_score_bounds (some (c_sales_per_emp c)) 10000 15000 20000 30000 false
  have h8 := calc_score_bounds (some (c_op_per_emp c)) 0 500 1000 2000 false
  have h9 := calc_score_bounds (some (c_equity_pct c)) 10 20 40 60 false
  have h10 := calc_score_bounds (some (c_loan_monthly c)) 12 6 3 1 true
  unfold FA3.avg_score FA3.sc_profit FA3.sc_growth FA3.sc_eff FA3.sc_prod
    FA3.sc_safety FA3.score_sales_growth
  refine ⟨⟨?_, ?_⟩, ⟨?_, ?_⟩, ⟨?_, ?_⟩, ⟨?_, ?_⟩, ⟨?_, ?_⟩, ?_, ?_⟩ <;>
    linarith [h1.1, h1.2, h2.1, h2.2, h3.1, h3.2, h4.1, h4.2, h5.1, h5.2,
      h6.1, h6.2, h7.1, h7.2, h8.1, h8.2, h9.1, h9.2, h10.1, h10.2]

/-- Claim C7: a mismatched balance sheet raises the warning flag and
nothing else: the evaluation, which also computes the flag, is total and
its report component is exactly the mismatch-ignoring pure pipeline
`evalReport` on the same entered figures. -/
theorem balance_mismatch_frame :
    ∀ c p : Raw, total_assets c ≠ total_liab_equity c →
      balanceDiff c ≠ 0 ∧ (evaluate c p).1.1 = true ∧
      (evaluate c p).2 = evalReport c p := by
  intro c p h
  have h0 : balanceDiff c ≠ 0 := by
    unfold FA3.balanceDiff
    exact sub_ne_zero_of_ne h
  refine ⟨h0, ?_, rfl⟩
  unfold FA3.evaluate FA3.balance_warning
  simp [h0]

/-- Witness for C7: raising net assets by 1000 against the balanced
default record makes total assets differ from total liabilities and
equity; the flag is raised and the report is untouched. -/
theorem balance_mismatch_frame_witness :
    total_assets mismatchCurr ≠ total_liab_equity mismatchCurr ∧
    balanceDiff mismatchCurr ≠ 0 ∧
    (evaluate mismatchCurr samplePrev).1.1 = true ∧
    (evaluate mismatchCurr samplePrev).2 = evalReport mismatchCurr samplePrev :=
  ⟨by decide, balance_mismatch_frame mismatchCurr samplePrev (by decide)⟩

/-- Claim C8: on every input pair, the compute-on-every-keystroke
pipeline of financial_analysis3.py and the compute-on-submit pipeline of
financial_analysis4.py (whose redisplay rerun is textually the same)
produce the same thirteen ratios, five category composites, overall score
and prior radar values: the two duplicated evaluation passes are one pure
evaluation function. -/
theorem fa3_fa4_pipelines_agree :
    ∀ c p : Raw, FA3.evalReport c p = FA4.evalReport c p :=
  fun _ _ => rfl

/-- Claim C9: the free-cash-flow value equals
`0.6 * op_profit - (fixed_assets_curr - fixed_assets_prev)`: the
depreciation added and the depreciation subtracted cancel exactly, so the
current depreciation input affects neither the value, nor its score term,
nor the profitability composite it feeds. -/
theorem fcf_depreciation_cancels :
    ∀ (c p : Raw) (d : ℤ),
      c_fcf c p = 0.6 * (op_profit c : ℚ) - ((c.fixed_assets : ℚ) - (p.fixed_assets : ℚ)) ∧
      c_fcf { c with depreciation := d } p = c_fcf c p ∧
      calc_score (some (c_fcf { c with depreciation := d } p)) (-1000) 0 1000 5000 false =
        calc_score (some (c_fcf c p)) (-1000) 0 1000 5000 false ∧
      sc_profit { c with depreciation := d } p = sc_profit c p := by
  intro c p d
  have hval : c_fcf c p =
      0.6 * (op_profit c : ℚ) - ((c.fixed_assets : ℚ) - (p.fixed_assets : ℚ)) := by
    unfold FA3.c_fcf
    ring
  have hupd : c_fcf { c with depreciation := d } p = c_fcf c p := by
    unfold FA3.c_fcf FA3.op_profit FA3.gross_profit
    dsimp only
    ring
  have hmargin : c_op_margin { c with depreciation := d } = c_op_margin c := rfl
  refine ⟨hval, hupd, by rw [hupd], ?_⟩
  unfold FA3.sc_profit
  rw [hmargin, hupd]

/-- Claim C10: the prior-period radar values are not computed from the
prior record for four of the five categories: growth, efficiency,
productivity and safety are the constant 3, while profitability is the
single prior operating-margin score rather than a mean of two constituent
scores. -/
theorem prior_radar_is_constant :
    ∀ p : Raw,
      (p_scores_val p).growth = 3 ∧
      (p_scores_val p).efficiency = 3 ∧
      (p_scores_val p).productivity = 3 ∧
      (p_scores_val p).safety = 3 ∧
      (p_scores_val p).profit = calc_score (some (p_op_margin p)) 0 2 5 10 false :=
  fun _ => ⟨rfl, rfl, rfl, rfl, rfl⟩
